import Mathlib

/-
  Shallow embedding of the gpiod D-Bus daemon (src/dbus/gpio-dbus.c) from
  the ladyada/libgpiod repository, together with theorems settling the
  specification claims about its chip-registry lifecycle.

  Modelling conventions:
  * A `gpiod_chip *` handle is a `Nat`; a NULL handle is `Option.none`.
  * A D-Bus object registration id (`guint`) is a `Nat`; 0 means
    "registration failed / no object", as in GLib.
  * The chip hash table (`ctx->chips`, a `GHashTable` keyed by device
    name with `destroy_chip_object` as the value-destroy function) is an
    association list `List (String × ChipCtx)`.
  * Side effects that the claims are about (closing a chip handle,
    unregistering a bus object, removing/inserting a map entry, logging
    a warning, subscribing for uevents) are recorded in an event trace.
  * `g_assert_true` failing (abort) is `Except.error` carrying the trace
    produced up to the abort; normal completion is `Except.ok`.
  * The external environment (results of `gpiod_chip_open_by_name` and
    `g_dbus_connection_register_object`) is a parameter `Env`.
-/

namespace GpioDbus

/-- Observable effects of the registry lifecycle code, in execution order. -/
inductive Event where
  | closeChip (h : Nat)
  | unregisterObj (i : Nat)
  | mapRemove (name : String)
  | mapInsert (name : String)
  | warn
  | subscribeUevents
  deriving DecidableEq, Repr

/-- `struct ChipCtx` (gpio-dbus.c lines 18-22): the chip handle and the
D-Bus object id. The `dbus_conn` back-pointer carries no state relevant
to the claims and is omitted. -/
structure ChipCtx where
  handle : Option Nat
  obj_id : Nat
  deriving DecidableEq, Repr

/-- `ctx->chips`: the GHashTable from device name to `ChipCtx`. -/
abbrev Registry := List (String × ChipCtx)

/-- External-world results: what `gpiod_chip_open_by_name` returns for a
device name (`none` = NULL) and what `g_dbus_connection_register_object`
returns for an object path (0 = failure). -/
structure Env where
  openByName : String → Option Nat
  registerObject : String → Nat

/-- Fixed object-path namespace used by `register_chip_object`
(`"/org/gpiod/%s"`). -/
def objPathBase : String := "/org/gpiod/"

/-- GHashTable lookup on the association-list model. -/
def lookup (m : Registry) (k : String) : Option ChipCtx :=
  (m.find? (fun p => p.1 == k)).map (fun p => p.2)

/-- `destroy_chip_object` (lines 184-196): closes the chip handle if it
is non-NULL, THEN unregisters the bus object if its id is non-zero
(this is the order the C code uses: close first, unregister second),
then frees the struct. Returns the trace of effects. -/
def destroy_chip_object (chip : ChipCtx) : List Event :=
  (match chip.handle with
   | some h => [Event.closeChip h]
   | none => []) ++
  (if chip.obj_id ≠ 0 then [Event.unregisterObj chip.obj_id] else [])

/-- `g_hash_table_insert`: if the key is absent, inserts the entry and
returns TRUE; if present, replaces the value (running the value-destroy
function `destroy_chip_object` on the old value) and returns FALSE. -/
def g_hash_table_insert (m : Registry) (k : String) (v : ChipCtx) :
    (Registry × List Event) × Bool :=
  match lookup m k with
  | some old =>
      ((m.map (fun p => if p.1 == k then (k, v) else p),
        destroy_chip_object old), false)
  | none => (((k, v) :: m, [Event.mapInsert k]), true)

/-- `g_hash_table_remove`: if the key is present, removes the entry
(the entry leaves the table first) and then runs the value-destroy
function `destroy_chip_object` on the removed value, returning TRUE;
if absent, returns FALSE and changes nothing. -/
def g_hash_table_remove (m : Registry) (k : String) :
    (Registry × List Event) × Bool :=
  match lookup m k with
  | some old =>
      ((m.filter (fun p => p.1 != k),
        Event.mapRemove k :: destroy_chip_object old), true)
  | none => ((m, []), false)

/-- `register_chip_object` (lines 198-239): open the chip by name; on
failure destroy the half-built ChipCtx, warn and return. Register the
bus object at `/org/gpiod/<name>`; on failure (id 0) destroy, warn and
return. Otherwise insert into the hash table and `g_assert_true` that
the key was fresh (abort = `Except.error`). The C code stores the
registration id in `chip->obj_id` once; `env.registerObject` is a pure
function here, so referring to it twice denotes the same value. -/
def register_chip_object (env : Env) (devname : String) (chips : Registry) :
    Except (List Event) (Registry × List Event) :=
  match env.openByName devname with
  | none =>
      Except.ok (chips, destroy_chip_object ⟨none, 0⟩ ++ [Event.warn])
  | some h =>
      if env.registerObject (objPathBase ++ devname) = 0 then
        Except.ok (chips, destroy_chip_object ⟨some h, 0⟩ ++ [Event.warn])
      else
        match g_hash_table_insert chips devname
                ⟨some h, env.registerObject (objPathBase ++ devname)⟩ with
        | ((m, tr), true) => Except.ok (m, tr)
        | ((_, tr), false) => Except.error tr

/-- `destroy_chip_dev` (lines 241-251): remove the device's entry from
the hash table (which triggers `destroy_chip_object` on the stored
value) and `g_assert_true` that the key existed. -/
def destroy_chip_dev (devname : String) (chips : Registry) :
    Except (List Event) (Registry × List Event) :=
  match g_hash_table_remove chips devname with
  | ((m, tr), true) => Except.ok (m, tr)
  | ((_, tr), false) => Except.error tr

/-- A udev device as seen by the daemon: its kernel name and its device
file path (`g_udev_device_get_device_file`, NULL = `none`). -/
structure Device where
  name : String
  deviceFile : Option String
  deriving DecidableEq, Repr

/-- `is_gpiochip_device` (lines 179-182): TRUE iff the device carries a
device file (filters out the legacy sysfs duplicate uevent). -/
def is_gpiochip_device (dev : Device) : Bool :=
  dev.deviceFile.isSome

/-- `on_uevent` (lines 264-281): ignore devices without a device file;
dispatch "add" to `register_chip_object`, "remove" to
`destroy_chip_dev`, warn on any other action. -/
def on_uevent (env : Env) (action : String) (dev : Device)
    (chips : Registry) : Except (List Event) (Registry × List Event) :=
  if !is_gpiochip_device dev then
    Except.ok (chips, [])
  else if action == "add" then
    register_chip_object env dev.name chips
  else if action == "remove" then
    destroy_chip_dev dev.name chips
  else
    Except.ok (chips, [Event.warn])

/-- `create_chip_list_cb` (lines 253-262): per-device callback of the
startup enumeration; registers the chip only if it passes
`is_gpiochip_device`. -/
def create_chip_list_cb (env : Env) (dev : Device) (chips : Registry) :
    Except (List Event) (Registry × List Event) :=
  if is_gpiochip_device dev then
    register_chip_object env dev.name chips
  else
    Except.ok (chips, [])

/-- `g_list_foreach(devs, create_chip_list_cb, ctx)`: fold the callback
over the enumerated device list, concatenating traces; an abort inside
the callback stops the fold. -/
def foreach_chip_list (env : Env) (devs : List Device) (chips : Registry) :
    Except (List Event) (Registry × List Event) :=
  match devs with
  | [] => Except.ok (chips, [])
  | d :: rest =>
      match create_chip_list_cb env d chips with
      | Except.error tr => Except.error tr
      | Except.ok (m, tr) =>
          match foreach_chip_list env rest m with
          | Except.error tr2 => Except.error (tr ++ tr2)
          | Except.ok (m2, tr2) => Except.ok (m2, tr ++ tr2)

/-- `on_name_acquired` (lines 293-307): first `g_signal_connect` the
uevent handler (subscribe), then run the one-shot enumeration
(`g_udev_client_query_by_subsystem` + `g_list_foreach`) — this is the
order the C code uses. -/
def on_name_acquired (env : Env) (devs : List Device) (chips : Registry) :
    Except (List Event) (Registry × List Event) :=
  match foreach_chip_list env devs chips with
  | Except.error tr => Except.error (Event.subscribeUevents :: tr)
  | Except.ok (m, tr) => Except.ok (m, Event.subscribeUevents :: tr)

/-- Metadata the chip driver library reports for an open chip handle at
a given moment: `gpiod_chip_name`, `gpiod_chip_label`,
`gpiod_chip_num_lines` (an `unsigned int`, so a value below 2^32). -/
structure ChipInfo where
  name : String
  label : String
  num_lines : Nat
  deriving DecidableEq, Repr

/-- The GVariant values the property getter builds:
`g_variant_new_string` and `g_variant_new_uint32`. -/
inductive GVariant where
  | vString (s : String)
  | vUint32 (n : Nat)
  deriving DecidableEq, Repr

/-- `on_chip_property_get` (lines 147-167). `h` is `chip->handle` (a
registered object's handle is always non-NULL, see the registry
invariant). `chipInfo` maps each handle to the metadata the chip driver
library reports AT THE TIME OF THIS CALL — the C code calls
`gpiod_chip_name` / `gpiod_chip_label` / `gpiod_chip_num_lines` on the
live handle inside the getter, so the result is a function of the
read-time state, never of a snapshot taken at add time. The GError out
parameter `err` is never touched by the C code, so it is returned
unchanged. An unrecognized property name yields NULL (`none`). -/
def on_chip_property_get (chipInfo : Nat → ChipInfo) (h : Nat)
    (property : String) (err : Option String) :
    Option GVariant × Option String :=
  if property == "Name" then
    (some (GVariant.vString (chipInfo h).name), err)
  else if property == "Label" then
    (some (GVariant.vString (chipInfo h).label), err)
  else if property == "NumLines" then
    (some (GVariant.vUint32 ((chipInfo h).num_lines % 2 ^ 32)), err)
  else
    (none, err)

/-- EXIT_SUCCESS. -/
def EXIT_SUCCESS : Nat := 0

/-- EXIT_FAILURE. -/
def EXIT_FAILURE : Nat := 1

/-- `die` (lines 48-57): logs at critical level and calls
`exit(EXIT_FAILURE)`; the exit status it produces. -/
def die_status : Nat := EXIT_FAILURE

/-- `on_name_lost` (lines 309-321): distinguishes a NULL connection
(bus unreachable), a closed connection, and a lost name only in the
log message; every branch calls `die`, so the process exit status is
EXIT_FAILURE in all three cases. -/
def on_name_lost (connNull : Bool) (connClosed : Bool) : Nat :=
  if connNull then die_status
  else if connClosed then die_status
  else die_status

/-- The signal that quit the main loop (`on_sigterm` / `on_sigint`,
both call `g_main_loop_quit`). -/
inductive QuitSig where
  | term
  | intr
  deriving DecidableEq, Repr

/-- How the `g_main_loop_run` phase of `main` ends: either a
terminate/interrupt signal quits the loop gracefully, or
`on_name_lost` fires (with the connection possibly NULL or closed) and
the process dies inside the loop. -/
inductive LoopOutcome where
  | signalQuit (s : QuitSig)
  | nameLost (connNull : Bool) (connClosed : Bool)
  deriving DecidableEq, Repr

/-- Exit status of `main` (lines 364-412) as a function of whether the
introspection XML parsed (`g_dbus_node_info_new_for_xml` non-NULL) and
how the main loop ended: parse failure dies before the loop; a
name-lost event dies via `on_name_lost`; a graceful signal quit falls
through to `return EXIT_SUCCESS`. -/
def main_status (introspect_ok : Bool) (outcome : LoopOutcome) : Nat :=
  if !introspect_ok then die_status
  else
    match outcome with
    | LoopOutcome.signalQuit _ => EXIT_SUCCESS
    | LoopOutcome.nameLost cn cc => on_name_lost cn cc

/-- The registry invariant of the spec: every entry's chip handle is
open (non-NULL) and its bus object is registered (non-zero id). -/
def RegistryInv (m : Registry) : Prop :=
  ∀ p ∈ m, p.2.handle ≠ none ∧ p.2.obj_id ≠ 0

instance : DecidablePred RegistryInv := fun m =>
  inferInstanceAs (Decidable (∀ p ∈ m, p.2.handle ≠ none ∧ p.2.obj_id ≠ 0))

/-- Registry states reachable by the daemon: the table starts empty
(`g_hash_table_new_full`), is mutated only by completed (non-aborted)
runs of `on_name_acquired` and `on_uevent`, and is emptied by
`g_hash_table_destroy` at shutdown. -/
inductive Reachable : Registry → Prop where
  | init : Reachable []
  | uevent (env : Env) (action : String) (dev : Device)
      (r r' : Registry) (tr : List Event) :
      Reachable r → on_uevent env action dev r = Except.ok (r', tr) →
      Reachable r'
  | acquired (env : Env) (devs : List Device)
      (r r' : Registry) (tr : List Event) :
      Reachable r → on_name_acquired env devs r = Except.ok (r', tr) →
      Reachable r'
  | destroy_all (r : Registry) : Reachable r → Reachable []

/-- The three property names of the `org.gpiod.Chip` interface. -/
def propName : String := "Name"

/-- Second property of the interface. -/
def propLabel : String := "Label"

/-- Third property of the interface. -/
def propNumLines : String := "NumLines"

/-- A property name outside the interface, for concrete instances. -/
def propOther : String := "Version"

/-- The uevent action string for device addition. -/
def actionAdd : String := "add"

/-- The uevent action string for device removal. -/
def actionRemove : String := "remove"

/-- A concrete device name, for concrete instances. -/
def gc0 : String := "gpiochip0"

/-- A concrete device-file path, for concrete instances. -/
def devfile0 : String := "/dev/gpiochip0"

/-- An environment in which opening and registering both succeed. -/
def envBoth : Env := ⟨fun _ => some 1, fun _ => 2⟩

/-- An environment in which `gpiod_chip_open_by_name` returns NULL. -/
def envOpenFail : Env := ⟨fun _ => none, fun _ => 2⟩

/-- An environment in which object registration returns id 0. -/
def envRegFail : Env := ⟨fun _ => some 1, fun _ => 0⟩

/-- Looking up the key just inserted at the head of the table finds the
inserted value. -/
theorem lookup_cons_self (m : Registry) (k : String) (v : ChipCtx) :
    lookup ((k, v) :: m) k = some v := by
  simp [lookup, List.find?_cons_of_pos]

/-- C3: for a device name not already present, `register_chip_object`
is atomic with respect to the registry: an open failure warns and
leaves the registry unchanged; a registration failure closes the
handle, warns, and leaves the registry unchanged; and the completed
registry contains the name exactly when both the open and the
registration succeeded. -/
theorem C3_add_atomic (env : Env) (devname : String) (chips : Registry)
    (hfresh : lookup chips devname = none) :
    (env.openByName devname = none →
       register_chip_object env devname chips
         = Except.ok (chips, [Event.warn])) ∧
    (∀ h, env.openByName devname = some h →
       env.registerObject (objPathBase ++ devname) = 0 →
       register_chip_object env devname chips
         = Except.ok (chips, [Event.closeChip h, Event.warn])) ∧
    (∀ h oid, env.openByName devname = some h →
       env.registerObject (objPathBase ++ devname) = oid → oid ≠ 0 →
       register_chip_object env devname chips
         = Except.ok ((devname, ⟨some h, oid⟩) :: chips,
                      [Event.mapInsert devname])) ∧
    (∀ m tr, register_chip_object env devname chips
         = Except.ok (m, tr) →
       ((∃ v, lookup m devname = some v) ↔
          (∃ h, env.openByName devname = some h ∧
                env.registerObject (objPathBase ++ devname) ≠ 0))) := by
  refine ⟨?_, ?_, ?_, ?_⟩
  · intro hopen
    simp [register_chip_object, hopen, destroy_chip_object]
  · intro h hopen hreg
    simp [register_chip_object, hopen, hreg, destroy_chip_object]
  · intro h oid hopen hreg hoid
    subst hreg
    simp [register_chip_object, hopen, hoid, g_hash_table_insert, hfresh]
  · intro m tr hok
    cases hopen : env.openByName devname with
    | none =>
        simp [register_chip_object, hopen] at hok
        constructor
        · rintro ⟨v, hv⟩
          rw [← hok.1, hfresh] at hv
          exact absurd hv (by simp)
        · rintro ⟨h, hcontra, _⟩
          exact absurd hcontra (by simp)
    | some h =>
        by_cases hz : env.registerObject (objPathBase ++ devname) = 0
        · simp [register_chip_object, hopen, hz] at hok
          constructor
          · rintro ⟨v, hv⟩
            rw [← hok.1, hfresh] at hv
            exact absurd hv (by simp)
          · rintro ⟨h', _, hnz⟩
            exact absurd hz hnz
        · simp [register_chip_object, hopen, hz, g_hash_table_insert,
                hfresh] at hok
          refine ⟨fun _ => ⟨h, rfl, hz⟩,
                  fun _ =>
                    ⟨⟨some h, env.registerObject (objPathBase ++ devname)⟩,
                     ?_⟩⟩
          rw [← hok.1]
          exact lookup_cons_self chips devname _

/-- C3 witness: with a fresh name, each failure mode leaves the
concrete registry empty and the all-success path inserts the entry. -/
theorem C3_add_atomic_witness :
    register_chip_object envOpenFail gc0 [] = Except.ok ([], [Event.warn]) ∧
    register_chip_object envRegFail gc0 []
      = Except.ok ([], [Event.closeChip 1, Event.warn]) ∧
    register_chip_object envBoth gc0 []
      = Except.ok ([(gc0, ⟨some 1, 2⟩)], [Event.mapInsert gc0]) :=
  ⟨(C3_add_atomic envOpenFail gc0 [] rfl).1 rfl,
   (C3_add_atomic envRegFail gc0 [] rfl).2.1 1 rfl rfl,
   (C3_add_atomic envBoth gc0 [] rfl).2.2.1 1 2 rfl rfl (by decide)⟩

/-- C4: with open and registration succeeding, inserting a device name
already present aborts on the assertion (`Except.error`), and removing
an absent name aborts on the assertion, while a fresh insert and a
present remove both complete without the assertion firing. -/
theorem C4_asserts_on_violation (env : Env) (chips : Registry)
    (devname : String) (h oid : Nat) (w : ChipCtx)
    (hopen : env.openByName devname = some h)
    (hreg : env.registerObject (objPathBase ++ devname) = oid)
    (hoid : oid ≠ 0) :
    (lookup chips devname = some w →
       ∃ tr, register_chip_object env devname chips
         = Except.error tr) ∧
    (lookup chips devname = none →
       ∃ out, register_chip_object env devname chips
         = Except.ok out) ∧
    (lookup chips devname = none →
       ∃ tr, destroy_chip_dev devname chips = Except.error tr) ∧
    (lookup chips devname = some w →
       ∃ out, destroy_chip_dev devname chips = Except.ok out) := by
  subst hreg
  refine ⟨?_, ?_, ?_, ?_⟩
  · intro hmem
    simp [register_chip_object, hopen, hoid, g_hash_table_insert, hmem]
  · intro hfresh
    simp [register_chip_object, hopen, hoid, g_hash_table_insert, hfresh]
  · intro hfresh
    simp [destroy_chip_dev, g_hash_table_remove, hfresh]
  · intro hmem
    simp [destroy_chip_dev, g_hash_table_remove, hmem]

/-- C4 witness: a duplicate insert of a concrete present name aborts, a
fresh insert completes, a remove of an absent name aborts, and a remove
of a present name completes. -/
theorem C4_asserts_on_violation_witness :
    (∃ tr, register_chip_object envBoth gc0 [(gc0, ⟨some 1, 2⟩)]
       = Except.error tr) ∧
    (∃ out, register_chip_object envBoth gc0 [] = Except.ok out) ∧
    (∃ tr, destroy_chip_dev gc0 [] = Except.error tr) ∧
    (∃ out, destroy_chip_dev gc0 [(gc0, ⟨some 1, 2⟩)] = Except.ok out) :=
  ⟨(C4_asserts_on_violation envBoth [(gc0, ⟨some 1, 2⟩)] gc0 1 2
      ⟨some 1, 2⟩ rfl rfl (by decide)).1 rfl,
   (C4_asserts_on_violation envBoth [] gc0 1 2
      ⟨some 1, 2⟩ rfl rfl (by decide)).2.1 rfl,
   (C4_asserts_on_violation envBoth [] gc0 1 2
      ⟨some 1, 2⟩ rfl rfl (by decide)).2.2.1 rfl,
   (C4_asserts_on_violation envBoth [(gc0, ⟨some 1, 2⟩)] gc0 1 2
      ⟨some 1, 2⟩ rfl rfl (by decide)).2.2.2 rfl⟩

/-- A completed `register_chip_object` preserves the registry
invariant: the only inserted entry has an open handle and a non-zero
object id. -/
theorem inv_register_preserved {env : Env} {devname : String}
    {chips m : Registry} {tr : List Event} (hinv : RegistryInv chips)
    (hok : register_chip_object env devname chips = Except.ok (m, tr)) :
    RegistryInv m := by
  cases hopen : env.openByName devname with
  | none =>
      simp [register_chip_object, hopen] at hok
      rw [← hok.1]
      exact hinv
  | some h =>
      by_cases hz : env.registerObject (objPathBase ++ devname) = 0
      · simp [register_chip_object, hopen, hz] at hok
        rw [← hok.1]
        exact hinv
      · cases hfresh : lookup chips devname with
        | some old =>
            simp [register_chip_object, hopen, hz, g_hash_table_insert,
                  hfresh] at hok
        | none =>
            simp [register_chip_object, hopen, hz, g_hash_table_insert,
                  hfresh] at hok
            rw [← hok.1]
            intro p hp
            rcases List.mem_cons.mp hp with hcase | hcase
            · subst hcase
              exact ⟨by simp, hz⟩
            · exact hinv p hcase

/-- A completed `destroy_chip_dev` preserves the registry invariant:
the surviving entries are a sublist of the previous registry. -/
theorem inv_remove_preserved {devname : String} {chips m : Registry}
    {tr : List Event} (hinv : RegistryInv chips)
    (hok : destroy_chip_dev devname chips = Except.ok (m, tr)) :
    RegistryInv m := by
  cases hmem : lookup chips devname with
  | none => simp [destroy_chip_dev, g_hash_table_remove, hmem] at hok
  | some old =>
      simp [destroy_chip_dev, g_hash_table_remove, hmem] at hok
      rw [← hok.1]
      intro p hp
      exact hinv p (List.mem_filter.mp hp).1

/-- A completed `on_uevent` preserves the registry invariant. -/
theorem inv_uevent_preserved {env : Env} {action : String}
    {dev : Device} {chips m : Registry} {tr : List Event}
    (hinv : RegistryInv chips)
    (hok : on_uevent env action dev chips = Except.ok (m, tr)) :
    RegistryInv m := by
  unfold on_uevent at hok
  split at hok
  · simp only [Except.ok.injEq, Prod.mk.injEq] at hok
    rw [← hok.1]
    exact hinv
  · split at hok
    · exact inv_register_preserved hinv hok
    · split at hok
      · exact inv_remove_preserved hinv hok
      · simp only [Except.ok.injEq, Prod.mk.injEq] at hok
        rw [← hok.1]
        exact hinv

/-- A completed enumeration callback preserves the registry
invariant. -/
theorem inv_cb_preserved {env : Env} {dev : Device}
    {chips m : Registry} {tr : List Event} (hinv : RegistryInv chips)
    (hok : create_chip_list_cb env dev chips = Except.ok (m, tr)) :
    RegistryInv m := by
  unfold create_chip_list_cb at hok
  split at hok
  · exact inv_register_preserved hinv hok
  · simp only [Except.ok.injEq, Prod.mk.injEq] at hok
    rw [← hok.1]
    exact hinv

/-- A completed enumeration fold preserves the registry invariant. -/
theorem inv_foreach_preserved {env : Env} (devs : List Device)
    {chips m : Registry} {tr : List Event} (hinv : RegistryInv chips)
    (hok : foreach_chip_list env devs chips = Except.ok (m, tr)) :
    RegistryInv m := by
  induction devs generalizing chips m tr with
  | nil =>
      simp [foreach_chip_list] at hok
      rw [← hok.1]
      exact hinv
  | cons d rest ih =>
      unfold foreach_chip_list at hok
      cases hcb : create_chip_list_cb env d chips with
      | error e =>
          rw [hcb] at hok
          exact absurd hok (by simp)
      | ok out =>
          obtain ⟨m1, tr1⟩ := out
          rw [hcb] at hok
          dsimp only at hok
          cases hrest : foreach_chip_list env rest m1 with
          | error e2 =>
              rw [hrest] at hok
              exact absurd hok (by simp)
          | ok out2 =>
              obtain ⟨m2, tr2⟩ := out2
              rw [hrest] at hok
              simp only [Except.ok.injEq, Prod.mk.injEq] at hok
              rw [← hok.1]
              exact ih (inv_cb_preserved hinv hcb) hrest

/-- A completed `on_name_acquired` preserves the registry invariant. -/
theorem inv_acquired_preserved {env : Env} {devs : List Device}
    {chips m : Registry} {tr : List Event} (hinv : RegistryInv chips)
    (hok : on_name_acquired env devs chips = Except.ok (m, tr)) :
    RegistryInv m := by
  unfold on_name_acquired at hok
  cases hfe : foreach_chip_list env devs chips with
  | error e =>
      rw [hfe] at hok
      exact absurd hok (by simp)
  | ok out =>
      obtain ⟨m2, tr2⟩ := out
      rw [hfe] at hok
      simp only [Except.ok.injEq, Prod.mk.injEq] at hok
      rw [← hok.1]
      exact inv_foreach_preserved devs hinv hfe

/-- C5: every reachable registry state satisfies the invariant that an
entry exists in the registry only with an open (non-NULL) chip handle
and a registered (non-zero) object id — no reachable state contains a
half-valid entry. -/
theorem C5_registry_invariant (r : Registry) (h : Reachable r) :
    RegistryInv r := by
  induction h with
  | init =>
      intro p hp
      exact absurd hp (by simp)
  | uevent env action dev r r' tr hr hstep ih =>
      exact inv_uevent_preserved ih hstep
  | acquired env devs r r' tr hr hstep ih =>
      exact inv_acquired_preserved ih hstep
  | destroy_all r hr ih =>
      intro p hp
      exact absurd hp (by simp)

/-- C5 witness: a concrete state reached by one add uevent from the
empty registry satisfies the invariant. -/
theorem C5_registry_invariant_witness :
    RegistryInv [(gc0, ⟨some 1, 2⟩)] :=
  C5_registry_invariant [(gc0, ⟨some 1, 2⟩)]
    (Reachable.uevent envBoth actionAdd ⟨gc0, some devfile0⟩ []
       [(gc0, ⟨some 1, 2⟩)] [Event.mapInsert gc0] Reachable.init rfl)

/-- C1 counterexample: removing a concrete registered device produces
the trace map-remove, close-handle, unregister-object — the bus object
is unregistered AFTER the chip handle is closed, so the claimed order
(unregister strictly before close) is false on this input. -/
theorem C1_remove_order_counterexample :
    destroy_chip_dev gc0 [(gc0, ⟨some 1, 2⟩)]
      = Except.ok ([], [Event.mapRemove gc0, Event.closeChip 1,
                        Event.unregisterObj 2]) ∧
    ¬ (List.indexOf (Event.unregisterObj 2)
         [Event.mapRemove gc0, Event.closeChip 1, Event.unregisterObj 2]
       < List.indexOf (Event.closeChip 1)
         [Event.mapRemove gc0, Event.closeChip 1,
          Event.unregisterObj 2]) := by
  constructor
  · rfl
  · decide

/-- C1 (amended): the remove-sequence removes the entry from the
registry map first, then closes the chip handle, then unregisters the
bus object; after the sequence the name no longer resolves in the
registry. -/
theorem C1_remove_order (devname : String) (h oid : Nat)
    (chips : Registry)
    (hmem : lookup chips devname = some ⟨some h, oid⟩) (hoid : oid ≠ 0) :
    destroy_chip_dev devname chips
      = Except.ok (chips.filter (fun p => p.1 != devname),
                   [Event.mapRemove devname, Event.closeChip h,
                    Event.unregisterObj oid]) ∧
    lookup (chips.filter (fun p => p.1 != devname)) devname = none := by
  constructor
  · simp [destroy_chip_dev, g_hash_table_remove, hmem,
          destroy_chip_object, hoid]
  · have hfind : List.find? (fun p => p.1 == devname)
        (chips.filter (fun p => p.1 != devname)) = none := by
      rw [List.find?_eq_none]
      rintro ⟨a, b⟩ hab
      have hne := (List.mem_filter.mp hab).2
      simpa using hne
    simp [lookup, hfind]

/-- C1 witness: the amended order on a concrete one-entry registry. -/
theorem C1_remove_order_witness :
    destroy_chip_dev gc0 [(gc0, ⟨some 1, 2⟩)]
      = Except.ok ([], [Event.mapRemove gc0, Event.closeChip 1,
                        Event.unregisterObj 2]) ∧
    lookup [] gc0 = none := by
  have h := C1_remove_order gc0 1 2 [(gc0, ⟨some 1, 2⟩)] rfl (by decide)
  exact h

/-- C2 counterexample: on a concrete startup device list, the name-
acquired handler emits the uevent subscription as its very first
effect, before the enumeration insert — so the claimed order
(enumerate-and-add strictly before subscribe) is false on this
input. -/
theorem C2_enumerate_order_counterexample :
    on_name_acquired envBoth [⟨gc0, some devfile0⟩] []
      = Except.ok ([(gc0, ⟨some 1, 2⟩)],
                   [Event.subscribeUevents, Event.mapInsert gc0]) ∧
    ¬ (List.indexOf (Event.mapInsert gc0)
         [Event.subscribeUevents, Event.mapInsert gc0]
       < List.indexOf Event.subscribeUevents
         [Event.subscribeUevents, Event.mapInsert gc0]) := by
  constructor
  · rfl
  · decide

/-- C2 (amended): on the name being granted, the handler first
subscribes for future add/remove hotplug notifications, and only after
that performs the one-shot enumeration of present devices, adding each
qualifying device: the subscription is the first effect of every
completed run, and the remaining trace is exactly the enumeration's. -/
theorem C2_subscribe_then_enumerate (env : Env) (devs : List Device)
    (chips m : Registry) (tr : List Event)
    (hok : on_name_acquired env devs chips = Except.ok (m, tr)) :
    tr.head? = some Event.subscribeUevents ∧
    foreach_chip_list env devs chips = Except.ok (m, tr.tail) := by
  unfold on_name_acquired at hok
  cases hfe : foreach_chip_list env devs chips with
  | error tr2 => rw [hfe] at hok; exact absurd hok (by simp)
  | ok out =>
      rw [hfe] at hok
      obtain ⟨m2, tr2⟩ := out
      simp only [Except.ok.injEq, Prod.mk.injEq] at hok
      obtain ⟨hm, htr⟩ := hok
      subst hm
      rw [← htr]
      exact ⟨rfl, rfl⟩

/-- C2 witness: the amended order on a concrete startup device list. -/
theorem C2_subscribe_then_enumerate_witness :
    ([Event.subscribeUevents, Event.mapInsert gc0].head?
       = some Event.subscribeUevents) ∧
    foreach_chip_list envBoth [⟨gc0, some devfile0⟩] []
      = Except.ok ([(gc0, ⟨some 1, 2⟩)], [Event.mapInsert gc0]) :=
  C2_subscribe_then_enumerate envBoth [⟨gc0, some devfile0⟩] []
    [(gc0, ⟨some 1, 2⟩)] [Event.subscribeUevents, Event.mapInsert gc0]
    rfl

/-- C6: a hotplug notification whose device descriptor carries no
device-file path performs no add and no remove processing and leaves
the registry unchanged, regardless of the action kind. -/
theorem C6_no_devfile_noop (env : Env) (action : String) (dev : Device)
    (chips : Registry) (hnf : dev.deviceFile = none) :
    on_uevent env action dev chips = Except.ok (chips, []) := by
  simp [on_uevent, is_gpiochip_device, hnf]

/-- C6 witness: a remove uevent for a device without a device file is a
no-op on a concrete registry. -/
theorem C6_no_devfile_noop_witness :
    on_uevent envBoth actionRemove ⟨gc0, none⟩ [] = Except.ok ([], []) :=
  C6_no_devfile_noop envBoth actionRemove ⟨gc0, none⟩ [] rfl

/-- C8: teardown of a chip entry skips absent resources: with a zero
object id only the handle close happens; with a NULL handle only the
object unregistration happens; with both absent nothing happens — the
destruction always completes, producing no effect for the absent
resource. -/
theorem C8_teardown_skips_absent (h i : Nat) :
    destroy_chip_object ⟨some h, 0⟩ = [Event.closeChip h] ∧
    (i ≠ 0 → destroy_chip_object ⟨none, i⟩ = [Event.unregisterObj i]) ∧
    destroy_chip_object ⟨none, 0⟩ = [] := by
  refine ⟨by simp [destroy_chip_object], ?_, by simp [destroy_chip_object]⟩
  intro hi
  simp [destroy_chip_object, hi]

/-- C8 witness: concrete half-built entries are torn down with only the
present resource released. -/
theorem C8_teardown_skips_absent_witness :
    destroy_chip_object ⟨some 3, 0⟩ = [Event.closeChip 3] ∧
    destroy_chip_object ⟨none, 4⟩ = [Event.unregisterObj 4] ∧
    destroy_chip_object ⟨none, 0⟩ = [] :=
  ⟨(C8_teardown_skips_absent 3 4).1,
   (C8_teardown_skips_absent 3 4).2.1 (by decide),
   (C8_teardown_skips_absent 3 4).2.2⟩

/-- C10: the startup enumeration callback applies the same device-file
filter as the hotplug handler: a device without a device file is
skipped by both (registry untouched, no register attempt), and a
device with a device file leads both to the same
`register_chip_object` call. -/
theorem C10_enumeration_filter (env : Env) (dev : Device)
    (chips : Registry) :
    (dev.deviceFile = none →
       create_chip_list_cb env dev chips = Except.ok (chips, []) ∧
       on_uevent env actionAdd dev chips = Except.ok (chips, [])) ∧
    (∀ f, dev.deviceFile = some f →
       create_chip_list_cb env dev chips
         = register_chip_object env dev.name chips ∧
       on_uevent env actionAdd dev chips
         = register_chip_object env dev.name chips) := by
  constructor
  · intro hnf
    constructor
    · simp [create_chip_list_cb, is_gpiochip_device, hnf]
    · simp [on_uevent, is_gpiochip_device, hnf]
  · intro f hf
    constructor
    · simp [create_chip_list_cb, is_gpiochip_device, hf]
    · simp [on_uevent, is_gpiochip_device, hf, actionAdd]

/-- C10 witness: a concrete sysfs-only device is skipped by the
enumeration callback, and a concrete chardev device is registered. -/
theorem C10_enumeration_filter_witness :
    create_chip_list_cb envBoth ⟨gc0, none⟩ [] = Except.ok ([], []) ∧
    create_chip_list_cb envBoth ⟨gc0, some devfile0⟩ []
      = register_chip_object envBoth gc0 [] :=
  ⟨((C10_enumeration_filter envBoth ⟨gc0, none⟩ []).1 rfl).1,
   ((C10_enumeration_filter envBoth ⟨gc0, some devfile0⟩ []).2
      devfile0 rfl).1⟩

/-- C7: the property getter answers the three interface properties with
values computed from the chip metadata as reported at the time of the
call (`chipInfo` is the read-time oracle, the getter holds no add-time
snapshot), and answers any other property name with NULL while leaving
the GError out parameter untouched. -/
theorem C7_property_get_live (chipInfo : Nat → ChipInfo) (h : Nat)
    (err : Option String) (p : String) :
    on_chip_property_get chipInfo h propName err
      = (some (GVariant.vString (chipInfo h).name), err) ∧
    on_chip_property_get chipInfo h propLabel err
      = (some (GVariant.vString (chipInfo h).label), err) ∧
    on_chip_property_get chipInfo h propNumLines err
      = (some (GVariant.vUint32 ((chipInfo h).num_lines % 2 ^ 32)), err) ∧
    (p ≠ propName → p ≠ propLabel → p ≠ propNumLines →
       on_chip_property_get chipInfo h p err = (none, err)) := by
  refine ⟨by simp [on_chip_property_get, propName],
          by simp [on_chip_property_get, propLabel],
          by simp [on_chip_property_get, propNumLines], ?_⟩
  intro h1 h2 h3
  simp [propName] at h1
  simp [propLabel] at h2
  simp [propNumLines] at h3
  simp [on_chip_property_get, h1, h2, h3]

/-- C7 witness: concrete reads of a known and an unknown property. -/
theorem C7_property_get_live_witness :
    on_chip_property_get (fun _ => ⟨gc0, devfile0, 4⟩) 0 propNumLines none
      = (some (GVariant.vUint32 4), none) ∧
    on_chip_property_get (fun _ => ⟨gc0, devfile0, 4⟩) 0 propOther none
      = (none, none) :=
  ⟨(C7_property_get_live (fun _ => ⟨gc0, devfile0, 4⟩) 0 none propOther).2.2.1,
   (C7_property_get_live (fun _ => ⟨gc0, devfile0, 4⟩) 0 none propOther).2.2.2
     (by decide) (by decide) (by decide)⟩

/-- C9: the process exit status is 0 exactly when the introspection
XML parsed and the main loop was quit by a terminate/interrupt signal;
it is EXIT_FAILURE when the XML fails to parse and whenever
`on_name_lost` fires (NULL connection, closed connection, or the name
lost after being granted). -/
theorem C9_exit_status (introspect_ok : Bool) (outcome : LoopOutcome) :
    (main_status introspect_ok outcome = EXIT_SUCCESS ↔
       introspect_ok = true ∧ ∃ s, outcome = LoopOutcome.signalQuit s) ∧
    main_status false outcome = EXIT_FAILURE ∧
    (∀ cn cc,
       main_status introspect_ok (LoopOutcome.nameLost cn cc)
         = EXIT_FAILURE) := by
  refine ⟨?_, ?_, ?_⟩
  · cases introspect_ok with
    | false =>
        simp [main_status, die_status, EXIT_SUCCESS, EXIT_FAILURE]
    | true =>
        cases outcome with
        | signalQuit s =>
            simp [main_status, EXIT_SUCCESS]
        | nameLost cn cc =>
            simp [main_status, on_name_lost, die_status, EXIT_SUCCESS,
                  EXIT_FAILURE]
  · simp [main_status, die_status]
  · intro cn cc
    cases introspect_ok <;>
      simp [main_status, on_name_lost, die_status]

/-- C9 witness: concrete outcomes — a SIGTERM quit exits 0, a parse
failure and a closed-connection name loss exit 1. -/
theorem C9_exit_status_witness :
    main_status true (LoopOutcome.signalQuit QuitSig.term) = EXIT_SUCCESS ∧
    main_status false (LoopOutcome.signalQuit QuitSig.term) = EXIT_FAILURE ∧
    main_status true (LoopOutcome.nameLost false true) = EXIT_FAILURE :=
  ⟨((C9_exit_status true (LoopOutcome.signalQuit QuitSig.term)).1).2
      ⟨rfl, QuitSig.term, rfl⟩,
   (C9_exit_status false (LoopOutcome.signalQuit QuitSig.term)).2.1,
   (C9_exit_status true (LoopOutcome.nameLost false true)).2.2 false true⟩

end GpioDbus
